import Mathlib

/-
Verification of the hvpp vCPU interrupt-injection engine and address
primitives, shallowly embedded from src/hvpp/hvpp/vcpu.inl and
src/hvpp/hvpp/ia32/memory.h.  The VMCS is modelled as explicit fields of a
vcpu state record; vmread/vmwrite become field reads and functional record
updates.  Machine integers are modelled as Nat (values are non-negative in
all the code paths verified here); the signed rip_adjust field is an Int.
-/

namespace hvpp

/-- From ia32/memory.h: page_shift constant. -/
def page_shift : Nat := 12

/-- From ia32/memory.h, pa_t::index: shift the address right by
page_shift + 9 bits per level and mask the low nine bits. -/
def pa_t_index (value_ : Nat) (level : Nat) : Nat :=
  (value_ >>> (page_shift + level * 9)) &&& ((1 <<< 9) - 1)

/-- From ia32/memory.h, va_t::index: identical arithmetic to pa_t::index. -/
def va_t_index (value_ : Nat) (level : Nat) : Nat :=
  (value_ >>> (page_shift + level * 9)) &&& ((1 <<< 9) - 1)

/-- Modelled from the spec: the VMX interruption types named by vcpu.inl
(vmx::interrupt_type); the vmx header defining the encoding is not under
src/. -/
inductive interrupt_type where
  | external
  | nmi
  | hardware_exception
  | software
  | privileged_exception
  | software_exception
  | other_event
deriving DecidableEq, Repr

/-- Modelled from the spec: the VM-entry interruption-information
doubleword carries a vector, a type, an error-code-valid bit and a valid
bit (spec section 3, pending interrupt record); the vmx header defining
the bit layout is not under src/. -/
structure vmx_interrupt_info_t where
  vector : Nat
  type : interrupt_type
  error_code_valid : Bool
  valid : Bool
deriving DecidableEq, Repr

/-- Modelled from the spec: the pending-interrupt record (info,
error_code, rip_adjust) of spec section 3; the interrupt.h wrapper class
is not under src/.  The default rip_adjust is the sentinel -1, meaning
"use the CPU-reported exit instruction length". -/
structure interrupt_info_t where
  info_ : vmx_interrupt_info_t
  error_code_ : Nat
  rip_adjust_ : Int
deriving DecidableEq, Repr

/-- Modelled from the spec: exception vector numbers named in the
vcpu.inl switch (exception.h is not under src/); the numbers appear in
spec section 4.4.2. -/
def double_fault : Nat := 8

/-- Modelled from the spec: vector of the invalid-TSS exception. -/
def invalid_tss : Nat := 10

/-- Modelled from the spec: vector of the segment-not-present exception. -/
def segment_not_present : Nat := 11

/-- Modelled from the spec: vector of the stack-segment-fault exception. -/
def stack_segment_fault : Nat := 12

/-- Modelled from the spec: vector of the general-protection exception. -/
def general_protection : Nat := 13

/-- Modelled from the spec: vector of the page-fault exception. -/
def page_fault : Nat := 14

/-- Modelled from the spec: vector of the alignment-check exception. -/
def alignment_check : Nat := 17

/-- Modelled from the spec: vector of the breakpoint (int3) exception. -/
def breakpoint : Nat := 3

/-- Modelled from the spec: bit position of interrupt_window_exiting in
the primary processor-based VM-execution controls (the msr header with
the bitfield layout is not under src/); setting the bitfield to true is
an or with this bit. -/
def interrupt_window_exiting_bit : Nat := 1 <<< 2

/-- Modelled from the spec: a descriptor-table register value (base and
limit), as used by host_gdtr and host_idtr; segment.h is not under
src/. -/
structure gdtr_t where
  base_address : Nat
  limit : Nat
deriving DecidableEq, Repr

/-- The vCPU state: the VMCS fields touched by the verified operations,
the cached rflags.IF of the exit context, and the pending-interrupt ring
(array, head index, count) from vcpu.h.  vmread and vmwrite on a field
become reads and functional updates of the corresponding component. -/
structure vcpu_t where
  ctrl_vmentry_interruption_info : vmx_interrupt_info_t
  ctrl_vmentry_exception_error_code : Nat
  ctrl_vmentry_instruction_length : Nat
  ctrl_pin_based : Nat
  ctrl_proc_based : Nat
  ctrl_proc_based2 : Nat
  ctrl_vmentry : Nat
  ctrl_vmexit : Nat
  ctrl_exception_bitmap : Nat
  vmexit_instruction_length : Nat
  vmexit_idt_vectoring_info : vmx_interrupt_info_t
  vmexit_idt_vectoring_error_code : Nat
  guest_interruptibility_state : Nat
  rflags_if : Bool
  host_gdtr_base : Nat
  host_idtr_base : Nat
  pending_interrupt_ : Nat → interrupt_info_t
  pending_interrupt_first_ : Nat
  pending_interrupt_count_ : Nat

/-- From vcpu.inl: vmx::adjust applies the fixed-0/fixed-1 capability
masks to a requested control value. -/
def vmx_adjust (fixed0 fixed1 v : Nat) : Nat := (v ||| fixed0) &&& fixed1

/-- From vcpu.inl: pin_based_controls read accessor. -/
def pin_based_controls (s : vcpu_t) : Nat := s.ctrl_pin_based

/-- From vcpu.inl: pin_based_controls write accessor (adjusted). -/
def pin_based_controls_w (f0 f1 : Nat) (s : vcpu_t) (controls : Nat) : vcpu_t :=
  { s with ctrl_pin_based := vmx_adjust f0 f1 controls }

/-- From vcpu.inl: processor_based_controls read accessor. -/
def processor_based_controls (s : vcpu_t) : Nat := s.ctrl_proc_based

/-- From vcpu.inl: processor_based_controls write accessor (adjusted). -/
def processor_based_controls_w (f0 f1 : Nat) (s : vcpu_t) (controls : Nat) : vcpu_t :=
  { s with ctrl_proc_based := vmx_adjust f0 f1 controls }

/-- From vcpu.inl: processor_based_controls2 read accessor. -/
def processor_based_controls2 (s : vcpu_t) : Nat := s.ctrl_proc_based2

/-- From vcpu.inl: processor_based_controls2 write accessor (adjusted). -/
def processor_based_controls2_w (f0 f1 : Nat) (s : vcpu_t) (controls : Nat) : vcpu_t :=
  { s with ctrl_proc_based2 := vmx_adjust f0 f1 controls }

/-- From vcpu.inl: vm_entry_controls read accessor. -/
def vm_entry_controls (s : vcpu_t) : Nat := s.ctrl_vmentry

/-- From vcpu.inl: vm_entry_controls write accessor (adjusted). -/
def vm_entry_controls_w (f0 f1 : Nat) (s : vcpu_t) (controls : Nat) : vcpu_t :=
  { s with ctrl_vmentry := vmx_adjust f0 f1 controls }

/-- From vcpu.inl: vm_exit_controls read accessor. -/
def vm_exit_controls (s : vcpu_t) : Nat := s.ctrl_vmexit

/-- From vcpu.inl: vm_exit_controls write accessor (adjusted). -/
def vm_exit_controls_w (f0 f1 : Nat) (s : vcpu_t) (controls : Nat) : vcpu_t :=
  { s with ctrl_vmexit := vmx_adjust f0 f1 controls }

/-- From vcpu.inl: exception_bitmap read accessor. -/
def exception_bitmap (s : vcpu_t) : Nat := s.ctrl_exception_bitmap

/-- From vcpu.inl: exception_bitmap write accessor.  Note the source
writes the requested value directly (no vmx::adjust call). -/
def exception_bitmap_w (s : vcpu_t) (v : Nat) : vcpu_t :=
  { s with ctrl_exception_bitmap := v }

/-- From vcpu.inl: entry_interruption_info write accessor. -/
def entry_interruption_info_w (s : vcpu_t) (info : vmx_interrupt_info_t) : vcpu_t :=
  { s with ctrl_vmentry_interruption_info := info }

/-- From vcpu.inl: entry_interruption_error_code write accessor. -/
def entry_interruption_error_code_w (s : vcpu_t) (error_code : Nat) : vcpu_t :=
  { s with ctrl_vmentry_exception_error_code := error_code }

/-- From vcpu.inl: entry_instruction_length write accessor. -/
def entry_instruction_length_w (s : vcpu_t) (instruction_length : Nat) : vcpu_t :=
  { s with ctrl_vmentry_instruction_length := instruction_length }

/-- From vcpu.inl: exit_instruction_length read accessor. -/
def exit_instruction_length (s : vcpu_t) : Nat := s.vmexit_instruction_length

/-- From vcpu.inl: exit_idt_vectoring_info read accessor. -/
def exit_idt_vectoring_info (s : vcpu_t) : vmx_interrupt_info_t :=
  s.vmexit_idt_vectoring_info

/-- From vcpu.inl: exit_idt_vectoring_error_code read accessor. -/
def exit_idt_vectoring_error_code (s : vcpu_t) : Nat :=
  s.vmexit_idt_vectoring_error_code

/-- From vcpu.inl: host_gdtr getter; reads only the base from the VMCS
(there is no host GDTR-limit field) and synthesizes limit 0xffff. -/
def host_gdtr (s : vcpu_t) : gdtr_t :=
  { base_address := s.host_gdtr_base, limit := 0xffff }

/-- From vcpu.inl: host_gdtr setter; writes only the base address. -/
def host_gdtr_w (s : vcpu_t) (gdtr : gdtr_t) : vcpu_t :=
  { s with host_gdtr_base := gdtr.base_address }

/-- From vcpu.inl: host_idtr getter; reads only the base from the VMCS
and synthesizes limit 0xffff. -/
def host_idtr (s : vcpu_t) : gdtr_t :=
  { base_address := s.host_idtr_base, limit := 0xffff }

/-- From vcpu.inl: host_idtr setter; writes only the base address. -/
def host_idtr_w (s : vcpu_t) (idtr : gdtr_t) : vcpu_t :=
  { s with host_idtr_base := idtr.base_address }

/-- Modelled from the spec: default-constructed pending interrupt record
(interrupt.h is not under src/): invalid info, zero error code and the
rip_adjust sentinel -1 of spec sections 3 and 9. -/
def interrupt_info_default : interrupt_info_t :=
  { info_ := { vector := 0, type := .external, error_code_valid := false, valid := false }
    error_code_ := 0
    rip_adjust_ := -1 }

/-- From vcpu.inl, vcpu_t::idt_vectoring_info: bundle the exit
IDT-vectoring information with its error code (when valid) and the exit
instruction length as rip_adjust. -/
def idt_vectoring_info (s : vcpu_t) : interrupt_info_t :=
  let result := interrupt_info_default
  let result := { result with info_ := exit_idt_vectoring_info s }
  if result.info_.valid then
    let result :=
      if result.info_.error_code_valid then
        { result with error_code_ := exit_idt_vectoring_error_code s }
      else
        result
    { result with rip_adjust_ := (exit_instruction_length s : Int) }
  else
    result

/-- From vcpu.inl, vcpu_t::interrupt_inject_force: unconditional write of
the VM-entry event fields.  The error code is written for the hardware
exceptions that demand one, and the instruction length for software
events with a positive (resolved) rip_adjust. -/
def interrupt_inject_force (s : vcpu_t) (interrupt : interrupt_info_t) : vcpu_t :=
  let s1 := entry_interruption_info_w s interrupt.info_
  if interrupt.info_.valid then
    let s2 :=
      if interrupt.info_.type = interrupt_type.hardware_exception then
        if interrupt.info_.vector = invalid_tss ∨
           interrupt.info_.vector = segment_not_present ∨
           interrupt.info_.vector = stack_segment_fault ∨
           interrupt.info_.vector = general_protection ∨
           interrupt.info_.vector = page_fault then
          entry_interruption_error_code_w s1 interrupt.error_code_
        else if interrupt.info_.vector = double_fault ∨
                interrupt.info_.vector = alignment_check then
          entry_interruption_error_code_w s1 interrupt.error_code_
        else
          s1
      else
        s1
    match interrupt.info_.type with
    | interrupt_type.software
    | interrupt_type.privileged_exception
    | interrupt_type.software_exception =>
      let rip_adjust :=
        if interrupt.rip_adjust_ = -1 then
          (exit_instruction_length s2 : Int)
        else
          interrupt.rip_adjust_
      if 0 < rip_adjust then
        entry_instruction_length_w s2 rip_adjust.toNat
      else
        s2
    | _ => s2
  else
    s1

/-- From vcpu.inl, the hvpp_assert conditions executed by
interrupt_inject_force on a given event: vectors 10 to 14 must carry a
valid error code; vectors 8 and 17 must carry a valid error code equal
to zero. -/
def interrupt_inject_force_assert (interrupt : interrupt_info_t) : Bool :=
  if interrupt.info_.valid = true ∧
     interrupt.info_.type = interrupt_type.hardware_exception then
    if interrupt.info_.vector = invalid_tss ∨
       interrupt.info_.vector = segment_not_present ∨
       interrupt.info_.vector = stack_segment_fault ∨
       interrupt.info_.vector = general_protection ∨
       interrupt.info_.vector = page_fault then
      interrupt.info_.error_code_valid
    else if interrupt.info_.vector = double_fault ∨
            interrupt.info_.vector = alignment_check then
      interrupt.info_.error_code_valid && (interrupt.error_code_ == 0)
    else
      true
  else
    true

/-- From vcpu.inl, vcpu_t::interrupt_inject: if the guest is not
interruptible (non-zero interruptibility state or IF clear), enqueue the
event at the front (first = true) or back of the pending ring, enable
interrupt-window exiting through the adjusted writer, and return false;
otherwise inject immediately and return true.  qs is the queue capacity
pending_interrupt_queue_size; f0 and f1 are the capability masks used by
the adjusted control write. -/
def interrupt_inject (qs f0 f1 : Nat) (s : vcpu_t) (interrupt : interrupt_info_t)
    (first : Bool) : vcpu_t × Bool :=
  if s.guest_interruptibility_state != 0 || !s.rflags_if then
    let s1 :=
      if first then
        let first' :=
          if s.pending_interrupt_first_ = 0 then
            qs - 1
          else
            s.pending_interrupt_first_ - 1
        { s with
          pending_interrupt_first_ := first'
          pending_interrupt_ := fun i =>
            if i = first' then interrupt else s.pending_interrupt_ i
          pending_interrupt_count_ := s.pending_interrupt_count_ + 1 }
      else
        let index := (s.pending_interrupt_first_ + s.pending_interrupt_count_) % qs
        { s with
          pending_interrupt_ := fun i =>
            if i = index then interrupt else s.pending_interrupt_ i
          pending_interrupt_count_ := s.pending_interrupt_count_ + 1 }
    let procbased_ctls := processor_based_controls s1
    let procbased_ctls := procbased_ctls ||| interrupt_window_exiting_bit
    (processor_based_controls_w f0 f1 s1 procbased_ctls, false)
  else
    (interrupt_inject_force s interrupt, true)

/-- From vcpu.inl, vcpu_t::interrupt_is_pending. -/
def interrupt_is_pending (s : vcpu_t) : Bool :=
  s.pending_interrupt_count_ > 0

/-- From vcpu.inl, vcpu_t::interrupt_inject_pending: dequeue from the
head of the pending ring, reset the head to 0 when the queue empties or
the head reaches the capacity, and force-inject the dequeued event. -/
def interrupt_inject_pending (qs : Nat) (s : vcpu_t) : vcpu_t :=
  let interrupt := s.pending_interrupt_ s.pending_interrupt_first_
  let first' := s.pending_interrupt_first_ + 1
  let count' := s.pending_interrupt_count_ - 1
  let s1 :=
    { s with
      pending_interrupt_first_ := if count' = 0 ∨ first' = qs then 0 else first'
      pending_interrupt_count_ := count' }
  interrupt_inject_force s1 interrupt

/-- Abstraction of the pending ring as the list of queued events in
dequeue order: entry i of the list sits at ring slot (head + i) mod
capacity. -/
def pendingList (qs : Nat) (s : vcpu_t) : List interrupt_info_t :=
  (List.range s.pending_interrupt_count_).map
    (fun i => s.pending_interrupt_ ((s.pending_interrupt_first_ + i) % qs))

/-- The queue bookkeeping invariant of spec section 3: the count never
exceeds the capacity and the head stays inside the ring. -/
def queue_invariant (qs : Nat) (s : vcpu_t) : Prop :=
  s.pending_interrupt_count_ ≤ qs ∧ s.pending_interrupt_first_ < qs

/-- Modelled from the spec: a freshly constructed vcpu starts with an
empty pending queue, head 0 and count 0 (the vcpu_t constructor in
vcpu.h is not under src/). -/
def vcpu_initial (s : vcpu_t) : vcpu_t :=
  { s with pending_interrupt_first_ := 0, pending_interrupt_count_ := 0 }

/-- A concrete vcpu state with all fields zeroed, an interruptible
guest and an empty pending queue, used for concrete scenarios. -/
def vcpu0 : vcpu_t :=
  { ctrl_vmentry_interruption_info := interrupt_info_default.info_
    ctrl_vmentry_exception_error_code := 0
    ctrl_vmentry_instruction_length := 0
    ctrl_pin_based := 0
    ctrl_proc_based := 0
    ctrl_proc_based2 := 0
    ctrl_vmentry := 0
    ctrl_vmexit := 0
    ctrl_exception_bitmap := 0
    vmexit_instruction_length := 0
    vmexit_idt_vectoring_info := interrupt_info_default.info_
    vmexit_idt_vectoring_error_code := 0
    guest_interruptibility_state := 0
    rflags_if := true
    host_gdtr_base := 0
    host_idtr_base := 0
    pending_interrupt_ := fun _ => interrupt_info_default
    pending_interrupt_first_ := 0
    pending_interrupt_count_ := 0 }

/-- A concrete vcpu state whose guest has RFLAGS.IF clear, so that
inject defers the event. -/
def s_block : vcpu_t := { vcpu0 with rflags_if := false }

/-- A concrete vcpu state whose exit instruction length reports 1. -/
def s_int3 : vcpu_t := { vcpu0 with vmexit_instruction_length := 1 }

/-- A concrete vcpu state after an exit with IDT-vectoring valid = 1,
vector = 14 (page fault), error_code_valid = 1 and error code 2. -/
def s_pf : vcpu_t :=
  { vcpu0 with
    vmexit_idt_vectoring_info :=
      { vector := page_fault, type := .hardware_exception
        error_code_valid := true, valid := true }
    vmexit_idt_vectoring_error_code := 2
    vmexit_instruction_length := 1 }

/-- Concrete external-interrupt event A for the queue-order scenario. -/
def evA : interrupt_info_t :=
  { info_ := { vector := 0x20, type := .external, error_code_valid := false, valid := true }
    error_code_ := 0, rip_adjust_ := -1 }

/-- Concrete external-interrupt event B for the queue-order scenario. -/
def evB : interrupt_info_t :=
  { info_ := { vector := 0x21, type := .external, error_code_valid := false, valid := true }
    error_code_ := 0, rip_adjust_ := -1 }

/-- Concrete external-interrupt event C for the queue-order scenario. -/
def evC : interrupt_info_t :=
  { info_ := { vector := 0x22, type := .external, error_code_valid := false, valid := true }
    error_code_ := 0, rip_adjust_ := -1 }

/-- Concrete int3 software-exception event with the rip_adjust
sentinel -1. -/
def ev_int3 : interrupt_info_t :=
  { info_ := { vector := breakpoint, type := .software_exception
               error_code_valid := false, valid := true }
    error_code_ := 0, rip_adjust_ := -1 }

/-- Concrete general-protection hardware exception with error code
0x42. -/
def ev_gp : interrupt_info_t :=
  { info_ := { vector := general_protection, type := .hardware_exception
               error_code_valid := true, valid := true }
    error_code_ := 0x42, rip_adjust_ := -1 }

/-- State after enqueueing A (back), B (front), C (back) on the blocked
state. -/
def s_abc : vcpu_t :=
  (interrupt_inject 16 0 0
    (interrupt_inject 16 0 0
      (interrupt_inject 16 0 0 s_block evA false).1 evB true).1 evC false).1

/-- State after the first pending injection following s_abc. -/
def s_abc1 : vcpu_t := interrupt_inject_pending 16 s_abc

/-- State after the second pending injection following s_abc. -/
def s_abc2 : vcpu_t := interrupt_inject_pending 16 s_abc1

/-- State after the third pending injection following s_abc. -/
def s_abc3 : vcpu_t := interrupt_inject_pending 16 s_abc2

/-- Offsets into the same residue class modulo the capacity are
injective below the capacity. -/
lemma add_mod_inj (qs first i j : Nat) (hi : i < qs) (hj : j < qs)
    (h : (first + i) % qs = (first + j) % qs) : i = j := by
  have h2 : i ≡ j [MOD qs] := Nat.ModEq.add_left_cancel' first h
  rwa [Nat.ModEq, Nat.mod_eq_of_lt hi, Nat.mod_eq_of_lt hj] at h2

/-- When the guest is not interruptible the deferral condition of
interrupt_inject evaluates to true. -/
lemma deferral_cond_true (s : vcpu_t)
    (hni : ¬(s.guest_interruptibility_state = 0 ∧ s.rflags_if = true)) :
    (s.guest_interruptibility_state != 0 || !s.rflags_if) = true := by
  by_cases h1 : s.guest_interruptibility_state = 0
  · cases hb : s.rflags_if
    · simp [hb]
    · exact absurd ⟨h1, hb⟩ hni
  · simp [h1]

/-- When the guest is interruptible the deferral condition of
interrupt_inject evaluates to false. -/
lemma deferral_cond_false (s : vcpu_t)
    (h : s.guest_interruptibility_state = 0 ∧ s.rflags_if = true) :
    (s.guest_interruptibility_state != 0 || !s.rflags_if) = false := by
  simp [h.1, h.2]

/-- interrupt_inject_force never touches the pending-queue bookkeeping. -/
lemma interrupt_inject_force_queue_fields (s : vcpu_t) (e : interrupt_info_t) :
    (interrupt_inject_force s e).pending_interrupt_ = s.pending_interrupt_
    ∧ (interrupt_inject_force s e).pending_interrupt_first_ = s.pending_interrupt_first_
    ∧ (interrupt_inject_force s e).pending_interrupt_count_ = s.pending_interrupt_count_ := by
  unfold interrupt_inject_force entry_interruption_info_w
    entry_interruption_error_code_w entry_instruction_length_w
  refine ⟨?_, ?_, ?_⟩ <;> (simp only []; repeat' split) <;> rfl

/-- interrupt_inject_force writes the event's info doubleword to the
VM-entry interruption-information field in every case. -/
lemma interrupt_inject_force_entry_info (s : vcpu_t) (e : interrupt_info_t) :
    (interrupt_inject_force s e).ctrl_vmentry_interruption_info = e.info_ := by
  unfold interrupt_inject_force entry_interruption_info_w
    entry_interruption_error_code_w entry_instruction_length_w
  simp only []
  (repeat' split) <;> rfl

/-- The pending-list abstraction is unaffected by interrupt_inject_force. -/
lemma pendingList_inject_force (qs : Nat) (s : vcpu_t) (e : interrupt_info_t) :
    pendingList qs (interrupt_inject_force s e) = pendingList qs s := by
  obtain ⟨h1, h2, h3⟩ := interrupt_inject_force_queue_fields s e
  simp [pendingList, h1, h2, h3]

/-- The pending-list abstraction is unaffected by the adjusted
processor-based-controls write. -/
lemma pendingList_proc_w (qs f0 f1 v : Nat) (s : vcpu_t) :
    pendingList qs (processor_based_controls_w f0 f1 s v) = pendingList qs s := rfl

/-- Writing one past the occupied segment of the ring appends to the
abstract list. -/
lemma range_map_back {α : Type} (qs first count : Nat) (q : Nat → α) (e : α)
    (hc : count < qs) :
    (List.range (count + 1)).map
        (fun i => if (first + i) % qs = (first + count) % qs then e
                  else q ((first + i) % qs))
      = (List.range count).map (fun i => q ((first + i) % qs)) ++ [e] := by
  rw [List.range_succ count, List.map_append]
  congr 1
  · apply List.map_congr_left
    intro i hi
    have hi' : i < count := List.mem_range.mp hi
    rw [if_neg]
    intro hcontra
    exact absurd (add_mod_inj qs first i count (hi'.trans hc) hc hcontra)
      (Nat.ne_of_lt hi')
  · simp

/-- Writing at the slot just before the head prepends to the abstract
list; first' is the decremented (wrapped) head. -/
lemma range_map_front_core {α : Type} (qs first first' count : Nat) (q : Nat → α) (e : α)
    (hf' : first' < qs) (hc : count < qs)
    (hrel : ∀ i, (first' + (i + 1)) % qs = (first + i) % qs) :
    (List.range (count + 1)).map
        (fun i => if (first' + i) % qs = first' then e else q ((first' + i) % qs))
      = e :: (List.range count).map (fun i => q ((first + i) % qs)) := by
  rw [List.range_succ_eq_map count, List.map_cons, List.map_map]
  congr 1
  · simp [Nat.mod_eq_of_lt hf']
  · apply List.map_congr_left
    intro i hi
    have hi' : i < count := List.mem_range.mp hi
    show (if (first' + (i + 1)) % qs = first' then e else q ((first' + (i + 1)) % qs))
      = q ((first + i) % qs)
    rw [hrel i, if_neg]
    intro hcontra
    have h1 : (first' + (i + 1)) % qs = (first' + 0) % qs := by
      rw [hrel i, Nat.add_zero, Nat.mod_eq_of_lt hf']
      exact hcontra
    have h2 := add_mod_inj qs first' (i + 1) 0 (by omega) (by omega) h1
    omega

/-- Dropping the head of the ring pops the abstract list; first' is the
incremented (possibly reset) head. -/
lemma range_map_pop {α : Type} (qs first first' count : Nat) (q : Nat → α)
    (hf : first < qs)
    (hrel : 0 < count → ∀ i, (first + (i + 1)) % qs = (first' + i) % qs) :
    (List.range (count + 1)).map (fun i => q ((first + i) % qs))
      = q first :: (List.range count).map (fun i => q ((first' + i) % qs)) := by
  rw [List.range_succ_eq_map count, List.map_cons, List.map_map]
  congr 1
  · simp [Nat.mod_eq_of_lt hf]
  · apply List.map_congr_left
    intro i hi
    have hi' : i < count := List.mem_range.mp hi
    show q ((first + (i + 1)) % qs) = q ((first' + i) % qs)
    rw [hrel (by omega) i]

/-- When the guest is interruptible, interrupt_inject forwards to
interrupt_inject_force and returns true. -/
lemma interrupt_inject_immediate (qs f0 f1 : Nat) (s : vcpu_t) (e : interrupt_info_t)
    (first : Bool) (h : s.guest_interruptibility_state = 0 ∧ s.rflags_if = true) :
    interrupt_inject qs f0 f1 s e first = (interrupt_inject_force s e, true) := by
  unfold interrupt_inject
  split
  case isTrue hcond =>
    rw [deferral_cond_false s h] at hcond
    exact absurd hcond Bool.false_ne_true
  case isFalse hcond => rfl

/-- When the guest is not interruptible, a back insertion produces the
explicit enqueue-at-back state with interrupt-window exiting enabled. -/
lemma interrupt_inject_deferred_back (qs f0 f1 : Nat) (s : vcpu_t) (e : interrupt_info_t)
    (hni : ¬(s.guest_interruptibility_state = 0 ∧ s.rflags_if = true)) :
    (interrupt_inject qs f0 f1 s e false).1 =
      processor_based_controls_w f0 f1
        { s with
          pending_interrupt_ := fun i =>
            if i = (s.pending_interrupt_first_ + s.pending_interrupt_count_) % qs then e
            else s.pending_interrupt_ i
          pending_interrupt_count_ := s.pending_interrupt_count_ + 1 }
        (s.ctrl_proc_based ||| interrupt_window_exiting_bit) := by
  unfold interrupt_inject
  split
  case isTrue hcond => rfl
  case isFalse hcond => exact absurd (deferral_cond_true s hni) hcond

/-- When the guest is not interruptible, a front insertion produces the
explicit enqueue-at-front state with interrupt-window exiting enabled. -/
lemma interrupt_inject_deferred_front (qs f0 f1 : Nat) (s : vcpu_t) (e : interrupt_info_t)
    (hni : ¬(s.guest_interruptibility_state = 0 ∧ s.rflags_if = true)) :
    (interrupt_inject qs f0 f1 s e true).1 =
      processor_based_controls_w f0 f1
        { s with
          pending_interrupt_first_ :=
            if s.pending_interrupt_first_ = 0 then qs - 1
            else s.pending_interrupt_first_ - 1
          pending_interrupt_ := fun i =>
            if i = (if s.pending_interrupt_first_ = 0 then qs - 1
                    else s.pending_interrupt_first_ - 1) then e
            else s.pending_interrupt_ i
          pending_interrupt_count_ := s.pending_interrupt_count_ + 1 }
        (s.ctrl_proc_based ||| interrupt_window_exiting_bit) := by
  unfold interrupt_inject
  split
  case isTrue hcond => rfl
  case isFalse hcond => exact absurd (deferral_cond_true s hni) hcond

/-- A deferred back insertion appends the event to the pending list. -/
lemma pendingList_inject_back (qs f0 f1 : Nat) (s : vcpu_t) (e : interrupt_info_t)
    (hc : s.pending_interrupt_count_ < qs)
    (hni : ¬(s.guest_interruptibility_state = 0 ∧ s.rflags_if = true)) :
    pendingList qs (interrupt_inject qs f0 f1 s e false).1 = pendingList qs s ++ [e] := by
  rw [interrupt_inject_deferred_back qs f0 f1 s e hni, pendingList_proc_w]
  exact range_map_back qs s.pending_interrupt_first_ s.pending_interrupt_count_
    s.pending_interrupt_ e hc

/-- A deferred front insertion prepends the event to the pending list. -/
lemma pendingList_inject_front (qs f0 f1 : Nat) (s : vcpu_t) (e : interrupt_info_t)
    (hf : s.pending_interrupt_first_ < qs)
    (hc : s.pending_interrupt_count_ < qs)
    (hni : ¬(s.guest_interruptibility_state = 0 ∧ s.rflags_if = true)) :
    pendingList qs (interrupt_inject qs f0 f1 s e true).1 = e :: pendingList qs s := by
  rw [interrupt_inject_deferred_front qs f0 f1 s e hni, pendingList_proc_w]
  by_cases h0 : s.pending_interrupt_first_ = 0
  · rw [if_pos h0]
    unfold pendingList
    simp only [h0]
    exact range_map_front_core qs 0 (qs - 1) s.pending_interrupt_count_
      s.pending_interrupt_ e (by omega) hc
      (fun i => by
        rw [show qs - 1 + (i + 1) = qs + i from by omega, Nat.add_mod_left,
          Nat.zero_add])
  · rw [if_neg h0]
    unfold pendingList
    exact range_map_front_core qs s.pending_interrupt_first_
      (s.pending_interrupt_first_ - 1) s.pending_interrupt_count_
      s.pending_interrupt_ e (by omega) hc
      (fun i => by
        rw [show s.pending_interrupt_first_ - 1 + (i + 1)
              = s.pending_interrupt_first_ + i from by omega])

/-- interrupt_inject_pending unfolded to its dequeue-then-force form. -/
lemma interrupt_inject_pending_eq (qs : Nat) (s : vcpu_t) :
    interrupt_inject_pending qs s =
      interrupt_inject_force
        { s with
          pending_interrupt_first_ :=
            if s.pending_interrupt_count_ - 1 = 0 ∨ s.pending_interrupt_first_ + 1 = qs
            then 0 else s.pending_interrupt_first_ + 1
          pending_interrupt_count_ := s.pending_interrupt_count_ - 1 }
        (s.pending_interrupt_ s.pending_interrupt_first_) := rfl

/-- A pending injection pops the head of the pending list. -/
lemma pendingList_pop (qs : Nat) (s : vcpu_t)
    (hf : s.pending_interrupt_first_ < qs)
    (hc : 0 < s.pending_interrupt_count_) :
    pendingList qs s =
      s.pending_interrupt_ s.pending_interrupt_first_ ::
        pendingList qs (interrupt_inject_pending qs s) := by
  rw [interrupt_inject_pending_eq, pendingList_inject_force]
  obtain ⟨c, hcount⟩ : ∃ c, s.pending_interrupt_count_ = c + 1 :=
    ⟨s.pending_interrupt_count_ - 1, by omega⟩
  unfold pendingList
  simp only [hcount, Nat.add_sub_cancel]
  refine range_map_pop qs s.pending_interrupt_first_ _ c s.pending_interrupt_ hf ?_
  intro hc0 i
  by_cases hq : s.pending_interrupt_first_ + 1 = qs
  · rw [if_pos (Or.inr hq),
      show s.pending_interrupt_first_ + (i + 1) = qs + i from by omega,
      Nat.add_mod_left, Nat.zero_add]
  · rw [if_neg (by omega),
      show s.pending_interrupt_first_ + (i + 1)
        = s.pending_interrupt_first_ + 1 + i from by omega]

/-- C6 counterexample: the exception-bitmap write accessor is a control
VMCS field writer that does not apply the adjust transformation; writing
a requested value of 0 with fixed0 mask 1 reads back 0, not
adjust(0) = 1. -/
theorem control_adjust_counterexample :
    exception_bitmap (exception_bitmap_w vcpu0 0) ≠ vmx_adjust 1 4294967295 0 := by
  decide

/-- C6 (amended): the write accessors for the pin-based,
processor-based, secondary processor-based, VM-entry and VM-exit
controls apply the adjust transformation, so reading back returns
adjust(requested); the exception-bitmap write accessor writes the
requested value unmodified, so reading back returns the requested
value. -/
theorem control_adjust_spec (f0 f1 v : Nat) (s : vcpu_t) :
    pin_based_controls (pin_based_controls_w f0 f1 s v) = vmx_adjust f0 f1 v
    ∧ processor_based_controls (processor_based_controls_w f0 f1 s v) = vmx_adjust f0 f1 v
    ∧ processor_based_controls2 (processor_based_controls2_w f0 f1 s v) = vmx_adjust f0 f1 v
    ∧ vm_entry_controls (vm_entry_controls_w f0 f1 s v) = vmx_adjust f0 f1 v
    ∧ vm_exit_controls (vm_exit_controls_w f0 f1 s v) = vmx_adjust f0 f1 v
    ∧ exception_bitmap (exception_bitmap_w s v) = v :=
  ⟨rfl, rfl, rfl, rfl, rfl, rfl⟩

/-- C7: the host_gdtr and host_idtr getters synthesize limit 0xFFFF
(the state has no host descriptor-table limit field to read), and the
setters write only the base address; hence after writing any descriptor
g the readback limit is 0xFFFF and the base is the written base. -/
theorem host_descriptor_table_spec (s : vcpu_t) (g : gdtr_t) :
    (host_gdtr s).limit = 0xffff
    ∧ host_gdtr (host_gdtr_w s g) = { base_address := g.base_address, limit := 0xffff }
    ∧ host_gdtr_w s g = { s with host_gdtr_base := g.base_address }
    ∧ (host_idtr s).limit = 0xffff
    ∧ host_idtr (host_idtr_w s g) = { base_address := g.base_address, limit := 0xffff }
    ∧ host_idtr_w s g = { s with host_idtr_base := g.base_address } :=
  ⟨rfl, rfl, rfl, rfl, rfl, rfl⟩

/-- C8: for every 64-bit address value and level 0..3, pa_t::index and
va_t::index both compute (value >> (12 + 9 * level)) & 0x1FF. -/
theorem address_index_spec (value level : Nat) (_hv : value < 2 ^ 64) (_hl : level < 4) :
    pa_t_index value level = (value >>> (12 + 9 * level)) &&& 0x1ff
    ∧ va_t_index value level = (value >>> (12 + 9 * level)) &&& 0x1ff := by
  have hsh : page_shift + level * 9 = 12 + 9 * level := by
    unfold page_shift
    omega
  have hm : (1 <<< 9) - 1 = 0x1ff := by decide
  refine ⟨?_, ?_⟩
  · unfold pa_t_index
    rw [hsh, hm]
  · unfold va_t_index
    rw [hsh, hm]

/-- Witness for C8 at a concrete 64-bit address and level 3. -/
theorem address_index_spec_witness :
    (0x123456789abc : Nat) < 2 ^ 64 ∧ (3 : Nat) < 4
    ∧ (pa_t_index 0x123456789abc 3 = (0x123456789abc >>> (12 + 9 * 3)) &&& 0x1ff
       ∧ va_t_index 0x123456789abc 3 = (0x123456789abc >>> (12 + 9 * 3)) &&& 0x1ff) :=
  ⟨by decide, by decide, address_index_spec 0x123456789abc 3 (by decide) (by decide)⟩

/-- C10: for an event whose interruption-information valid bit is
clear, interrupt_inject_force writes only the VM-entry
interruption-information field (the whole resulting state equals the
input state with just that field replaced) and no assertion fires. -/
theorem interrupt_inject_force_invalid_spec (s : vcpu_t) (e : interrupt_info_t)
    (h : e.info_.valid = false) :
    interrupt_inject_force s e = { s with ctrl_vmentry_interruption_info := e.info_ }
    ∧ interrupt_inject_force_assert e = true := by
  constructor
  · simp [interrupt_inject_force, entry_interruption_info_w, h]
  · simp [interrupt_inject_force_assert, h]

/-- Witness for C10 at the default (invalid) event. -/
theorem interrupt_inject_force_invalid_spec_witness :
    interrupt_info_default.info_.valid = false
    ∧ (interrupt_inject_force vcpu0 interrupt_info_default
        = { vcpu0 with ctrl_vmentry_interruption_info := interrupt_info_default.info_ }
       ∧ interrupt_inject_force_assert interrupt_info_default = true) :=
  ⟨by decide, interrupt_inject_force_invalid_spec vcpu0 interrupt_info_default (by decide)⟩

/-- C2: for a valid hardware-exception event, interrupt_inject_force
writes the VM-entry exception-error-code field with the event's error
code exactly when the vector is one of 8, 10, 11, 12, 13, 14, 17, and
the executed assertions demand a valid error code for vectors 10 to 14
and a valid zero error code for vectors 8 and 17. -/
theorem interrupt_inject_force_error_code_spec (s : vcpu_t) (e : interrupt_info_t)
    (hvalid : e.info_.valid = true)
    (htype : e.info_.type = interrupt_type.hardware_exception) :
    (interrupt_inject_force s e).ctrl_vmentry_exception_error_code =
      (if e.info_.vector = 8 ∨ e.info_.vector = 10 ∨ e.info_.vector = 11 ∨
          e.info_.vector = 12 ∨ e.info_.vector = 13 ∨ e.info_.vector = 14 ∨
          e.info_.vector = 17
       then e.error_code_ else s.ctrl_vmentry_exception_error_code)
    ∧ (interrupt_inject_force_assert e = true ↔
        ((e.info_.vector = 10 ∨ e.info_.vector = 11 ∨ e.info_.vector = 12 ∨
          e.info_.vector = 13 ∨ e.info_.vector = 14) →
            e.info_.error_code_valid = true)
        ∧ ((e.info_.vector = 8 ∨ e.info_.vector = 17) →
            e.info_.error_code_valid = true ∧ e.error_code_ = 0)) := by
  constructor
  · simp only [interrupt_inject_force, entry_interruption_info_w,
      entry_interruption_error_code_w, entry_instruction_length_w,
      exit_instruction_length, hvalid, htype, invalid_tss, segment_not_present,
      stack_segment_fault, general_protection, page_fault, double_fault,
      alignment_check, if_true, ↓reduceIte]
    split_ifs with h1 h2 h3 <;> first | rfl | tauto
  · simp only [interrupt_inject_force_assert, hvalid, htype, invalid_tss,
      segment_not_present, stack_segment_fault, general_protection, page_fault,
      double_fault, alignment_check, and_self, if_true, Bool.and_eq_true,
      beq_iff_eq, ↓reduceIte]
    split_ifs with h1 h2
    · constructor
      · intro h
        refine ⟨fun _ => h, fun hb => ?_⟩
        rcases h1 with h1 | h1 | h1 | h1 | h1 <;> rcases hb with hb | hb <;> omega
      · intro h
        exact h.1 h1
    · simp only [Bool.and_eq_true, beq_iff_eq]
      constructor
      · intro h
        refine ⟨fun ha => ?_, fun _ => h⟩
        rcases h2 with h2 | h2 <;> rcases ha with ha | ha | ha | ha | ha <;> omega
      · intro h
        exact h.2 h2
    · constructor
      · intro _
        exact ⟨fun ha => absurd ha h1, fun hb => absurd hb h2⟩
      · intro _
        rfl

/-- Witness for C2: injecting a general-protection fault with error
code 0x42 writes 0x42 to the VM-entry exception-error-code field. -/
theorem interrupt_inject_force_error_code_spec_witness :
    ev_gp.info_.valid = true
    ∧ ev_gp.info_.type = interrupt_type.hardware_exception
    ∧ (interrupt_inject_force vcpu0 ev_gp).ctrl_vmentry_exception_error_code = 0x42 := by
  refine ⟨by decide, by decide, ?_⟩
  have h := (interrupt_inject_force_error_code_spec vcpu0 ev_gp (by decide) (by decide)).1
  rw [h]
  decide

/-- C3: for a valid event of a software type, interrupt_inject_force
resolves rip_adjust (replacing the sentinel -1 with the exit
instruction length) and writes the VM-entry instruction-length field
exactly when the resolved value is positive; the other event types
never write that field; injecting an int3 software exception with the
sentinel while the exit instruction length reports 1 writes length 1. -/
theorem interrupt_inject_force_rip_adjust_spec (s : vcpu_t) (e : interrupt_info_t)
    (hvalid : e.info_.valid = true) :
    ((e.info_.type = interrupt_type.software ∨
      e.info_.type = interrupt_type.privileged_exception ∨
      e.info_.type = interrupt_type.software_exception) →
      (interrupt_inject_force s e).ctrl_vmentry_instruction_length =
        (if 0 < (if e.rip_adjust_ = -1 then (exit_instruction_length s : Int)
                 else e.rip_adjust_)
         then (if e.rip_adjust_ = -1 then (exit_instruction_length s : Int)
               else e.rip_adjust_).toNat
         else s.ctrl_vmentry_instruction_length))
    ∧ ((e.info_.type = interrupt_type.external ∨
        e.info_.type = interrupt_type.nmi ∨
        e.info_.type = interrupt_type.hardware_exception ∨
        e.info_.type = interrupt_type.other_event) →
      (interrupt_inject_force s e).ctrl_vmentry_instruction_length =
        s.ctrl_vmentry_instruction_length)
    ∧ (interrupt_inject_force s_int3 ev_int3).ctrl_vmentry_instruction_length = 1 := by
  refine ⟨?_, ?_, by decide⟩
  · intro ht
    rcases ht with ht | ht | ht <;>
      (simp only [interrupt_inject_force, entry_interruption_info_w,
        entry_interruption_error_code_w, entry_instruction_length_w,
        exit_instruction_length, hvalid, ht, if_true, ↓reduceIte]
       split_ifs <;> rfl)
  · intro ht
    rcases ht with ht | ht | ht | ht <;>
      (simp only [interrupt_inject_force, entry_interruption_info_w,
        entry_interruption_error_code_w, entry_instruction_length_w,
        exit_instruction_length, hvalid, ht, if_true, ↓reduceIte]
       split_ifs <;> rfl)

/-- Witness for C3: the int3 scenario with the sentinel rip_adjust. -/
theorem interrupt_inject_force_rip_adjust_spec_witness :
    ev_int3.info_.valid = true
    ∧ (interrupt_inject_force s_int3 ev_int3).ctrl_vmentry_instruction_length = 1 :=
  ⟨by decide, (interrupt_inject_force_rip_adjust_spec s_int3 ev_int3 (by decide)).2.2⟩

/-- C9 counterexample: when the exit IDT-vectoring information is not
valid, idt_vectoring_info keeps the sentinel rip_adjust -1 instead of
the CPU-reported exit instruction length (here 1), so the record's
rip_adjust is not unconditionally the exit instruction length. -/
theorem idt_vectoring_rip_adjust_counterexample :
    exit_instruction_length s_int3 = 1
    ∧ (idt_vectoring_info s_int3).rip_adjust_ ≠ (exit_instruction_length s_int3 : Int) := by
  decide

/-- C9 (amended): idt_vectoring_info returns a record whose info is the
exit IDT-vectoring information; when that info is valid its rip_adjust
is the CPU-reported exit instruction length (otherwise it keeps the
sentinel -1), and when additionally error_code_valid is set its error
code is the exit IDT-vectoring error code; the record returned for a
page-fault vectoring exit (vector 14, error code 2) fed to
interrupt_inject_force reproduces the #PF injection with error code 2. -/
theorem idt_vectoring_info_spec (s : vcpu_t) :
    (idt_vectoring_info s).info_ = exit_idt_vectoring_info s
    ∧ ((exit_idt_vectoring_info s).valid = true →
        (idt_vectoring_info s).rip_adjust_ = (exit_instruction_length s : Int))
    ∧ ((exit_idt_vectoring_info s).valid = false →
        (idt_vectoring_info s).rip_adjust_ = -1)
    ∧ ((exit_idt_vectoring_info s).valid = true →
        (exit_idt_vectoring_info s).error_code_valid = true →
        (idt_vectoring_info s).error_code_ = exit_idt_vectoring_error_code s)
    ∧ ((interrupt_inject_force s_pf (idt_vectoring_info s_pf)).ctrl_vmentry_interruption_info
         = exit_idt_vectoring_info s_pf
       ∧ (interrupt_inject_force s_pf (idt_vectoring_info s_pf)).ctrl_vmentry_exception_error_code
         = 2) := by
  refine ⟨?_, ?_, ?_, ?_, by decide⟩
  · unfold idt_vectoring_info
    simp only []
    (repeat' split) <;> rfl
  · intro h
    unfold idt_vectoring_info
    simp only []
    split
    case isTrue hc => split <;> rfl
    case isFalse hc => exact absurd h hc
  · intro h
    simp only [idt_vectoring_info, interrupt_info_default, h, Bool.false_eq_true,
      ↓reduceIte]
  · intro h he
    simp only [idt_vectoring_info, h, he, ↓reduceIte]

/-- Witness for C9 at the page-fault vectoring state. -/
theorem idt_vectoring_info_spec_witness :
    (exit_idt_vectoring_info s_pf).valid = true
    ∧ (exit_idt_vectoring_info s_pf).error_code_valid = true
    ∧ (idt_vectoring_info s_pf).rip_adjust_ = (exit_instruction_length s_pf : Int)
    ∧ (idt_vectoring_info s_pf).error_code_ = exit_idt_vectoring_error_code s_pf := by
  refine ⟨by decide, by decide, ?_, ?_⟩
  · exact (idt_vectoring_info_spec s_pf).2.1 (by decide)
  · exact (idt_vectoring_info_spec s_pf).2.2.2.1 (by decide) (by decide)

/-- C1: if the guest is interruptible (interruptibility state 0 and
RFLAGS.IF set) interrupt_inject forwards to interrupt_inject_force and
returns true; otherwise, under the precondition count less than the
capacity (and the head invariant), it enqueues the event at the front
when first is true and at the back otherwise, writes the
processor-based controls with interrupt-window exiting set (through the
adjusting writer, per the spec), and returns false. -/
theorem interrupt_inject_spec (qs f0 f1 : Nat) (s : vcpu_t) (e : interrupt_info_t)
    (first : Bool) :
    (s.guest_interruptibility_state = 0 ∧ s.rflags_if = true →
      interrupt_inject qs f0 f1 s e first = (interrupt_inject_force s e, true))
    ∧ (¬(s.guest_interruptibility_state = 0 ∧ s.rflags_if = true) →
        s.pending_interrupt_count_ < qs →
        s.pending_interrupt_first_ < qs →
        (interrupt_inject qs f0 f1 s e first).2 = false
        ∧ pendingList qs (interrupt_inject qs f0 f1 s e first).1 =
            (if first then e :: pendingList qs s else pendingList qs s ++ [e])
        ∧ processor_based_controls (interrupt_inject qs f0 f1 s e first).1 =
            vmx_adjust f0 f1 (processor_based_controls s ||| interrupt_window_exiting_bit)
        ∧ (f1.testBit 2 = true →
            (processor_based_controls (interrupt_inject qs f0 f1 s e first).1).testBit 2
              = true)) := by
  constructor
  · intro h
    exact interrupt_inject_immediate qs f0 f1 s e first h
  · intro hni hc hf
    have hsnd : (interrupt_inject qs f0 f1 s e first).2 = false := by
      unfold interrupt_inject
      split
      case isTrue hcond => rfl
      case isFalse hcond => exact absurd (deferral_cond_true s hni) hcond
    have hproc : processor_based_controls (interrupt_inject qs f0 f1 s e first).1 =
        vmx_adjust f0 f1 (processor_based_controls s ||| interrupt_window_exiting_bit) := by
      cases first
      · rw [interrupt_inject_deferred_back qs f0 f1 s e hni]
        rfl
      · rw [interrupt_inject_deferred_front qs f0 f1 s e hni]
        rfl
    refine ⟨hsnd, ?_, hproc, ?_⟩
    · cases first
      · rw [pendingList_inject_back qs f0 f1 s e hc hni]
        simp
      · rw [pendingList_inject_front qs f0 f1 s e hf hc hni]
        simp
    · intro hbit
      rw [hproc]
      unfold vmx_adjust interrupt_window_exiting_bit
      rw [Nat.testBit_and, Nat.testBit_or, Nat.testBit_or, hbit]
      have hb : ((1 : Nat) <<< 2).testBit 2 = true := by decide
      rw [hb]
      simp

/-- Witness for C1: a deferred back insertion on the blocked state. -/
theorem interrupt_inject_spec_witness :
    ¬(s_block.guest_interruptibility_state = 0 ∧ s_block.rflags_if = true)
    ∧ s_block.pending_interrupt_count_ < 16
    ∧ s_block.pending_interrupt_first_ < 16
    ∧ ((interrupt_inject 16 0 4 s_block evA false).2 = false
       ∧ pendingList 16 (interrupt_inject 16 0 4 s_block evA false).1 =
           (if false then evA :: pendingList 16 s_block
            else pendingList 16 s_block ++ [evA])
       ∧ processor_based_controls (interrupt_inject 16 0 4 s_block evA false).1 =
           vmx_adjust 0 4 (processor_based_controls s_block ||| interrupt_window_exiting_bit)
       ∧ ((4 : Nat).testBit 2 = true →
           (processor_based_controls (interrupt_inject 16 0 4 s_block evA false).1).testBit 2
             = true)) :=
  ⟨by decide, by decide, by decide,
    (interrupt_inject_spec 16 0 4 s_block evA false).2 (by decide) (by decide) (by decide)⟩

/-- C4: deferred insertions and pending injections refine a deque on
lists: a back insertion appends, a front insertion prepends (so it is
delivered before everything queued earlier), and each pending injection
delivers and removes the head; in the concrete scenario enqueue A
(back), B (front), C (back), the next three pending injections deliver
B, then A, then C. -/
theorem pending_queue_order_spec (qs f0 f1 : Nat) (s : vcpu_t) (e : interrupt_info_t)
    (hf : s.pending_interrupt_first_ < qs)
    (hc : s.pending_interrupt_count_ < qs)
    (hni : ¬(s.guest_interruptibility_state = 0 ∧ s.rflags_if = true)) :
    pendingList qs (interrupt_inject qs f0 f1 s e false).1 = pendingList qs s ++ [e]
    ∧ pendingList qs (interrupt_inject qs f0 f1 s e true).1 = e :: pendingList qs s
    ∧ (0 < s.pending_interrupt_count_ →
        pendingList qs s =
          s.pending_interrupt_ s.pending_interrupt_first_ ::
            pendingList qs (interrupt_inject_pending qs s)
        ∧ (interrupt_inject_pending qs s).ctrl_vmentry_interruption_info =
            (s.pending_interrupt_ s.pending_interrupt_first_).info_)
    ∧ (s_abc1.ctrl_vmentry_interruption_info = evB.info_
       ∧ s_abc2.ctrl_vmentry_interruption_info = evA.info_
       ∧ s_abc3.ctrl_vmentry_interruption_info = evC.info_) := by
  refine ⟨pendingList_inject_back qs f0 f1 s e hc hni,
          pendingList_inject_front qs f0 f1 s e hf hc hni,
          fun hpos => ⟨pendingList_pop qs s hf hpos, ?_⟩,
          by decide⟩
  rw [interrupt_inject_pending_eq]
  exact interrupt_inject_force_entry_info _ _

/-- Witness for C4: a front insertion on the blocked state. -/
theorem pending_queue_order_spec_witness :
    s_block.pending_interrupt_first_ < 16
    ∧ s_block.pending_interrupt_count_ < 16
    ∧ ¬(s_block.guest_interruptibility_state = 0 ∧ s_block.rflags_if = true)
    ∧ pendingList 16 (interrupt_inject 16 0 0 s_block evB true).1 =
        evB :: pendingList 16 s_block :=
  ⟨by decide, by decide, by decide,
    (pending_queue_order_spec 16 0 0 s_block evB (by decide) (by decide) (by decide)).2.1⟩

/-- C5: the queue bookkeeping satisfies count at most the capacity and
head inside the ring initially, after every inject (given count below
capacity whenever an enqueue occurs) and after every pending injection
(given a pending event), and the head is reset to 0 when the queue
empties or the head reaches the capacity after a dequeue. -/
theorem pending_queue_invariant_spec (qs f0 f1 : Nat) (s : vcpu_t) (e : interrupt_info_t)
    (first : Bool) :
    (0 < qs → queue_invariant qs (vcpu_initial s))
    ∧ (queue_invariant qs s →
        ((s.guest_interruptibility_state = 0 ∧ s.rflags_if = true) ∨
          s.pending_interrupt_count_ < qs) →
        queue_invariant qs (interrupt_inject qs f0 f1 s e first).1)
    ∧ (queue_invariant qs s → 0 < s.pending_interrupt_count_ →
        queue_invariant qs (interrupt_inject_pending qs s)
        ∧ ((s.pending_interrupt_count_ = 1 ∨ s.pending_interrupt_first_ + 1 = qs) →
            (interrupt_inject_pending qs s).pending_interrupt_first_ = 0)) := by
  refine ⟨?_, ?_, ?_⟩
  · intro h
    exact ⟨by simp [vcpu_initial], by simpa [vcpu_initial] using h⟩
  · intro hinv hpre
    by_cases hint : s.guest_interruptibility_state = 0 ∧ s.rflags_if = true
    · rw [interrupt_inject_immediate qs f0 f1 s e first hint]
      show queue_invariant qs (interrupt_inject_force s e)
      refine ⟨?_, ?_⟩
      · rw [(interrupt_inject_force_queue_fields s e).2.2]
        exact hinv.1
      · rw [(interrupt_inject_force_queue_fields s e).2.1]
        exact hinv.2
    · have hc : s.pending_interrupt_count_ < qs := hpre.resolve_left hint
      cases first
      · rw [interrupt_inject_deferred_back qs f0 f1 s e hint]
        constructor
        · show s.pending_interrupt_count_ + 1 ≤ qs
          omega
        · show s.pending_interrupt_first_ < qs
          exact hinv.2
      · rw [interrupt_inject_deferred_front qs f0 f1 s e hint]
        constructor
        · show s.pending_interrupt_count_ + 1 ≤ qs
          omega
        · show (if s.pending_interrupt_first_ = 0 then qs - 1
                else s.pending_interrupt_first_ - 1) < qs
          have h2 := hinv.2
          split <;> omega
  · intro hinv hpos
    constructor
    · rw [interrupt_inject_pending_eq]
      refine ⟨?_, ?_⟩
      · rw [(interrupt_inject_force_queue_fields _ _).2.2]
        show s.pending_interrupt_count_ - 1 ≤ qs
        have := hinv.1
        omega
      · rw [(interrupt_inject_force_queue_fields _ _).2.1]
        show (if s.pending_interrupt_count_ - 1 = 0 ∨ s.pending_interrupt_first_ + 1 = qs
              then 0 else s.pending_interrupt_first_ + 1) < qs
        have h2 := hinv.2
        split
        · omega
        · rename_i hcond
          omega
    · intro hreset
      rw [interrupt_inject_pending_eq]
      rw [(interrupt_inject_force_queue_fields _ _).2.1]
      show (if s.pending_interrupt_count_ - 1 = 0 ∨ s.pending_interrupt_first_ + 1 = qs
            then 0 else s.pending_interrupt_first_ + 1) = 0
      have hor : s.pending_interrupt_count_ - 1 = 0 ∨ s.pending_interrupt_first_ + 1 = qs := by
        rcases hreset with h | h
        · left
          omega
        · right
          exact h
      rw [if_pos hor]

/-- Witness for C5: the initial queue on a 16-slot ring. -/
theorem pending_queue_invariant_spec_witness :
    (0 : Nat) < 16 ∧ queue_invariant 16 (vcpu_initial vcpu0) :=
  ⟨by decide, (pending_queue_invariant_spec 16 0 0 vcpu0 evA false).1 (by decide)⟩

end hvpp
